import Mathlib

/-!
Verification of `hmmlearn/monitors.py`: convergence monitors for EM-style
iterative optimization.

The embedding models the monitor state (`tol`, `n_iter`, `verbose`,
`history`, `iter`) and the operations `__init__` (`mk`), `_reset` (`reset`),
`report`, `_check_convergence` (`checkConvergence`, one case per concrete
subclass) and the `converged` property.  Real values are embedded as `ℚ`,
Python integers as `ℤ`.  Python exceptions are embedded with `Except`:
a raised exception propagates to the caller and leaves the monitor in its
pre-call state (in `report`, both mutations occur after the verbose block,
so an exception there means no mutation happened).

Source-faithfulness notes:
* `history` is a `deque(maxlen=2)`: appending to a full buffer evicts the
  oldest element.  `history` is ordered oldest first.
* In `report`, the verbose branch reads `self.histor[-1]` — the attribute
  `histor` does not exist (the guard on the same line spells it
  `self.history`), so Python raises `AttributeError` whenever `verbose` is
  true and the history is non-empty.  When the history is empty the branch
  reads `float("nan")` instead and succeeds.  The printing itself is I/O
  and is not modelled beyond this success/failure behaviour.
* `RelativeMonitor._check_convergence` divides by `previous`; Python float
  division by zero raises `ZeroDivisionError`.
* `ThresholdMonitor._check_convergence` returns `self.history and
  self.history[-1] >= self.tol`; on an empty deque this returns the (falsy)
  deque itself.  We embed its truthiness as a `Bool`.
* `converged` is `self.iter == self.n_iter or self._check_convergence()`;
  Python `or` short-circuits, so the policy is not evaluated (and cannot
  raise) when the iteration count equals `n_iter`.
* `__init__` performs no validation of its arguments.
-/

/-- Python exceptions that the monitor code can raise. -/
inductive PyError : Type where
  | attributeError : PyError
  | zeroDivisionError : PyError
  deriving DecidableEq, Repr

/-- State of `_BaseMonitor`: configuration plus mutable `history`/`iter`. -/
structure Monitor : Type where
  tol : ℚ
  n_iter : ℤ
  verbose : Bool
  history : List ℚ
  iter : ℤ
  deriving DecidableEq, Repr

/-- The three concrete subclasses, which differ only in
`_check_convergence`. -/
inductive Policy : Type where
  | convergence : Policy
  | relative : Policy
  | threshold : Policy
  deriving DecidableEq, Repr

/-- `_BaseMonitor.__init__`: stores the configuration verbatim (no
validation), with an empty history and `iter = 0`. -/
def mk (tol : ℚ) (n_iter : ℤ) (verbose : Bool) : Monitor :=
  { tol := tol, n_iter := n_iter, verbose := verbose, history := [], iter := 0 }

/-- `_BaseMonitor._reset`: clears `history` and zeroes `iter`; the
configuration fields are untouched. -/
def reset (m : Monitor) : Monitor :=
  { m with history := [], iter := 0 }

/-- Append to a `deque(maxlen=2)`: evict the oldest element when the buffer
already holds two. -/
def dequeAppend2 (h : List ℚ) (v : ℚ) : List ℚ :=
  if h.length < 2 then h ++ [v] else h.tail ++ [v]

/-- `_BaseMonitor.report`.  The verbose branch evaluates
`self.histor[-1] if self.history else float("nan")`: with a non-empty
history it dereferences the non-existent attribute `histor` and raises
`AttributeError` before any mutation; otherwise (verbose with empty
history, or not verbose) the call appends `logprob` to the history and
increments `iter`. -/
def report (m : Monitor) (logprob : ℚ) : Except PyError Monitor :=
  if m.verbose ∧ m.history ≠ [] then
    .error .attributeError
  else
    .ok { m with history := dequeAppend2 m.history logprob, iter := m.iter + 1 }

/-- `_check_convergence` of each concrete subclass.
`ConvergenceMonitor`: absolute gain below `tol`, needs exactly two values.
`RelativeMonitor`: relative gain below `tol`, needs exactly two values;
division by a zero `previous` raises `ZeroDivisionError`.
`ThresholdMonitor`: truthiness of `self.history and self.history[-1] >= self.tol`. -/
def checkConvergence : Policy → Monitor → Except PyError Bool
  | .convergence, m =>
      match m.history with
      | [a, b] => .ok (decide (b - a < m.tol))
      | _ => .ok false
  | .relative, m =>
      match m.history with
      | [previous, current] =>
          if previous = 0 then .error .zeroDivisionError
          else .ok (decide ((current - previous) / previous < m.tol))
      | _ => .ok false
  | .threshold, m =>
      match m.history.getLast? with
      | some last => .ok (decide (m.tol ≤ last))
      | none => .ok false

/-- `_BaseMonitor.converged`: `self.iter == self.n_iter or
self._check_convergence()`, with Python short-circuit `or`. -/
def converged (p : Policy) (m : Monitor) : Except PyError Bool :=
  if m.iter = m.n_iter then .ok true else checkConvergence p m

/-- A sequence of `report` calls; an exception in any call propagates. -/
def reportAll (m : Monitor) : List ℚ → Except PyError Monitor
  | [] => .ok m
  | v :: vs => match report m v with
      | .ok m' => reportAll m' vs
      | .error e => .error e

/-! ### Helper lemmas -/

theorem report_ok_elim {m : Monitor} {v : ℚ} {m' : Monitor}
    (h : report m v = .ok m') :
    m' = { m with history := dequeAppend2 m.history v, iter := m.iter + 1 } := by
  unfold report at h
  split at h
  · exact absurd h (by simp)
  · injection h with h
    exact h.symm

theorem reportAll_ok_state {vs : List ℚ} {m m' : Monitor}
    (h : reportAll m vs = .ok m') :
    m'.iter = m.iter + vs.length ∧ m'.tol = m.tol ∧ m'.n_iter = m.n_iter ∧
      m'.verbose = m.verbose := by
  induction vs generalizing m with
  | nil =>
      injection h with h
      subst h
      simp
  | cons v vs ih =>
      unfold reportAll at h
      cases hr : report m v with
      | error e => rw [hr] at h; exact absurd h (by simp)
      | ok m1 =>
          rw [hr] at h
          obtain ⟨hi, ht, hn, hv⟩ := ih h
          have hm1 := report_ok_elim hr
          subst hm1
          refine ⟨?_, ht, hn, hv⟩
          rw [hi]
          simp
          ring

theorem dequeAppend2_length_le {h : List ℚ} {v : ℚ} (hle : h.length ≤ 2) :
    (dequeAppend2 h v).length ≤ 2 := by
  unfold dequeAppend2
  split <;> simp <;> omega

theorem reportAll_ok_history_le {vs : List ℚ} {m m' : Monitor}
    (h0 : m.history.length ≤ 2) (h : reportAll m vs = .ok m') :
    m'.history.length ≤ 2 := by
  induction vs generalizing m with
  | nil =>
      injection h with h
      subst h
      exact h0
  | cons v vs ih =>
      unfold reportAll at h
      cases hr : report m v with
      | error e => rw [hr] at h; exact absurd h (by simp)
      | ok m1 =>
          rw [hr] at h
          have hm1 := report_ok_elim hr
          subst hm1
          exact ih (dequeAppend2_length_le h0) h

theorem reportAll_append_ok {vs ws : List ℚ} {m m' : Monitor}
    (h : reportAll m (vs ++ ws) = .ok m') :
    ∃ mi, reportAll m vs = .ok mi ∧ reportAll mi ws = .ok m' := by
  induction vs generalizing m with
  | nil => exact ⟨m, rfl, h⟩
  | cons v vs ih =>
      rw [List.cons_append] at h
      unfold reportAll at h
      cases hr : report m v with
      | error e => rw [hr] at h; exact absurd h (by simp)
      | ok m1 =>
          rw [hr] at h
          obtain ⟨mi, h1, h2⟩ := ih h
          refine ⟨mi, ?_, h2⟩
          unfold reportAll
          rw [hr]
          exact h1

/-! ### Claim theorems -/

/-- Claim C1 (code bug in the source): the claim says `report` always appends
the value and increments the iteration count, regardless of `verbose` and of
the monitor's state, and that the verbose progress output never affects
whether the call succeeds.  In the code, the verbose branch reads the
misspelled attribute `self.histor`, so on a verbose monitor whose history is
non-empty `report` raises `AttributeError` before performing any state
update.  This theorem evaluates the code at the failing input: on a verbose
monitor the first `report` call succeeds (empty history takes the
`float("nan")` branch), and the second one raises. -/
theorem report_verbose_attribute_error :
    report (mk 0 10 true) 1 =
      .ok { tol := 0, n_iter := 10, verbose := true, history := [1], iter := 1 } ∧
    report { tol := 0, n_iter := 10, verbose := true, history := [1], iter := 1 } 2 =
      .error .attributeError := ⟨rfl, rfl⟩

/-- Claim C3 counterexample: constructing a monitor with the non-positive
`maxIterations` value `-3` is not rejected.  `__init__` is a total function
(it contains no validation and cannot raise), so construction returns an
ordinary monitor storing `-3`, and that monitor is fully operational:
`report` works on it. -/
theorem mk_accepts_nonpositive_max_iterations :
    (mk 1 (-3) false).n_iter = -3 ∧ (mk 1 (-3) false).iter = 0 ∧
    report (mk 1 (-3) false) 5 =
      .ok { tol := 1, n_iter := -3, verbose := false, history := [5], iter := 1 } :=
  ⟨rfl, rfl, rfl⟩

/-- Claim C3 (amended): constructing a monitor with a non-positive
`maxIterations` value is accepted — `__init__` performs no validation and
simply stores the configuration, with an empty history and a zero iteration
count. -/
theorem mk_stores_config_without_validation (tol : ℚ) (n_iter : ℤ) (verbose : Bool)
    (h : n_iter ≤ 0) :
    mk tol n_iter verbose =
      { tol := tol, n_iter := n_iter, verbose := verbose, history := [], iter := 0 } := rfl

/-- Witness for C3 (amended) at the concrete configuration `(2, -3, true)`. -/
theorem mk_stores_config_without_validation_witness :
    mk 2 (-3) true =
      { tol := 2, n_iter := -3, verbose := true, history := [], iter := 0 } :=
  mk_stores_config_without_validation 2 (-3) true (by decide)

/-- Claim C4: for every policy and every sequence of reported values, a
monitor constructed with `maxIterations = 3` is converged immediately after
exactly 3 completed `report` calls; the max-iteration check short-circuits,
so `converged` returns `.ok true` without consulting the policy (which
therefore cannot fail there). -/
theorem converged_after_max_iterations (p : Policy) (tol : ℚ) (verbose : Bool)
    (vs : List ℚ) (m : Monitor) (hlen : vs.length = 3)
    (h : reportAll (mk tol 3 verbose) vs = .ok m) :
    converged p m = .ok true := by
  obtain ⟨hi, -, hn, -⟩ := reportAll_ok_state h
  have h3 : m.iter = m.n_iter := by
    rw [hi, hn]
    simp [mk, hlen]
  simp [converged, h3]

/-- Witness for C4: the relative policy and values `[0, 0, 1]`, which leave
history `[0, 1]` — the relative check would raise `ZeroDivisionError` if it
were consulted, yet `converged` is `.ok true`. -/
theorem converged_after_max_iterations_witness :
    converged .relative
      { tol := 0, n_iter := 3, verbose := false, history := [0, 1], iter := 3 } = .ok true :=
  converged_after_max_iterations .relative 0 false [0, 0, 1]
    { tol := 0, n_iter := 3, verbose := false, history := [0, 1], iter := 3 } rfl rfl

/-- Claim C8: starting from a monitor whose iteration count is zero (fresh or
freshly reset), after `n` completed `report` calls the iteration count
equals `n`. -/
theorem iter_counts_reports (m0 m : Monitor) (vs : List ℚ)
    (h0 : m0.iter = 0) (h : reportAll m0 vs = .ok m) :
    m.iter = vs.length := by
  have hi := (reportAll_ok_state h).1
  omega

/-- Witness for C8: three reported values on a fresh monitor give
`iter = 3`. -/
theorem iter_counts_reports_witness :
    ({ tol := 0, n_iter := 10, verbose := false, history := [2, 3], iter := 3 } : Monitor).iter =
      (([1, 2, 3] : List ℚ).length : ℤ) :=
  iter_counts_reports (mk 0 10 false)
    { tol := 0, n_iter := 10, verbose := false, history := [2, 3], iter := 3 } [1, 2, 3] rfl rfl

/-- Claim C9: on a freshly constructed monitor of any policy, `converged`
raises nothing and returns `false`, except that it returns `true` when
`maxIterations = 0`. -/
theorem converged_before_any_report (p : Policy) (tol : ℚ) (n_iter : ℤ) (verbose : Bool) :
    converged p (mk tol n_iter verbose) = .ok (decide (n_iter = 0)) := by
  by_cases h : n_iter = 0
  · subst h
    simp [converged, mk]
  · cases p <;> simp [converged, mk, checkConvergence, h, Ne.symm h]

/-- Claim C2: for the relative-gain policy (iteration cap not reached):
with history `[previous, current]` and `previous ≠ 0`, convergence holds iff
`(current - previous) / previous < tol`; with fewer than two values it
reports non-convergence; with `previous = 0` evaluating `converged` raises
`ZeroDivisionError` instead of returning a boolean. -/
theorem relative_policy_domain (m : Monitor) (h : m.iter ≠ m.n_iter) :
    (∀ p c, m.history = [p, c] → p ≠ 0 →
      converged .relative m = .ok (decide ((c - p) / p < m.tol))) ∧
    (m.history.length < 2 → converged .relative m = .ok false) ∧
    (∀ c, m.history = [0, c] → converged .relative m = .error .zeroDivisionError) := by
  refine ⟨?_, ?_, ?_⟩
  · intro p c hh hp
    simp [converged, h, checkConvergence, hh, hp]
  · intro hlen
    rcases hh : m.history with _ | ⟨a, _ | ⟨b, t⟩⟩
    · simp [converged, h, checkConvergence, hh]
    · simp [converged, h, checkConvergence, hh]
    · rw [hh] at hlen
      simp at hlen
      omega
  · intro c hh
    simp [converged, h, checkConvergence, hh]

/-- Witness for C2: history `[10, 10.5]` with tolerance `0.1`; the gain
ratio is `0.05 < 0.1`. -/
theorem relative_policy_domain_witness :
    converged .relative
      { tol := 1/10, n_iter := 5, verbose := false, history := [10, 21/2], iter := 2 } =
      .ok (decide (((21/2 : ℚ) - 10) / 10 < 1/10)) :=
  (relative_policy_domain
    { tol := 1/10, n_iter := 5, verbose := false, history := [10, 21/2], iter := 2 }
    (by decide)).1 10 (21/2) rfl (by norm_num)

/-- Claim C5: for the absolute-gain policy (iteration cap not reached):
`converged` is true iff the history holds exactly two values whose
difference is strictly below the tolerance, and it always returns a boolean
(never raises). -/
theorem absolute_gain_policy (m : Monitor) (h : m.iter ≠ m.n_iter) :
    (converged .convergence m = .ok true ↔
      ∃ a b, m.history = [a, b] ∧ b - a < m.tol) ∧
    (converged .convergence m = .ok true ∨ converged .convergence m = .ok false) := by
  have hc : converged .convergence m = checkConvergence .convergence m := by
    simp [converged, h]
  rw [hc]
  rcases hh : m.history with _ | ⟨a, _ | ⟨b, _ | ⟨c, t⟩⟩⟩
  · simp [checkConvergence, hh]
  · simp [checkConvergence, hh]
  · constructor
    · simp only [checkConvergence, hh]
      constructor
      · intro hok
        refine ⟨a, b, rfl, ?_⟩
        simpa using hok
      · rintro ⟨a', b', hab, hlt⟩
        obtain ⟨rfl, rfl⟩ : a = a' ∧ b = b' := by simpa using hab
        simp [hlt]
    · simp only [checkConvergence, hh]
      by_cases hba : b - a < m.tol
      · left
        simp [hba]
      · right
        simp [hba]
  · simp [checkConvergence, hh]

/-- Witness for C5: history `[5.0, 5.0009]` with tolerance `0.001`; the gain
`0.0009 < 0.001`, so `converged` is true. -/
theorem absolute_gain_policy_witness :
    converged .convergence
      { tol := 1/1000, n_iter := 10, verbose := false,
        history := [5, 50009/10000], iter := 2 } = .ok true :=
  (absolute_gain_policy
    { tol := 1/1000, n_iter := 10, verbose := false,
      history := [5, 50009/10000], iter := 2 }
    (by decide)).1.mpr ⟨5, 50009/10000, rfl, by norm_num⟩

/-- Claim C6: for the absolute-threshold policy (iteration cap not reached):
`converged` is true iff the history is non-empty and its most recent value
is at least the tolerance, and it always returns a boolean (never raises);
in particular a single-element history is enough. -/
theorem threshold_policy (m : Monitor) (h : m.iter ≠ m.n_iter) :
    (converged .threshold m = .ok true ↔
      ∃ last, m.history.getLast? = some last ∧ m.tol ≤ last) ∧
    (converged .threshold m = .ok true ∨ converged .threshold m = .ok false) := by
  have hc : converged .threshold m = checkConvergence .threshold m := by
    simp [converged, h]
  rw [hc]
  rcases hh : m.history.getLast? with _ | last
  · simp [checkConvergence, hh]
  · constructor
    · simp [checkConvergence, hh]
    · simp only [checkConvergence, hh]
      by_cases hl : m.tol ≤ last
      · left
        simp [hl]
      · right
        simp [hl]

/-- Witness for C6: a single reported value `3.0` against tolerance `2.5`
already gives convergence. -/
theorem threshold_policy_witness :
    converged .threshold
      { tol := 5/2, n_iter := 10, verbose := false, history := [3], iter := 1 } = .ok true :=
  (threshold_policy
    { tol := 5/2, n_iter := 10, verbose := false, history := [3], iter := 1 }
    (by decide)).1.mpr ⟨3, rfl, by norm_num⟩

/-- Claim C7: along any succeeding sequence of `report` calls the history
holds at most 2 values after every call (stated for an arbitrary prefix of
the call sequence), and `reset` empties the history and zeroes the
iteration count while leaving the configuration unchanged. -/
theorem history_bounded_and_reset_clears (tol : ℚ) (n_iter : ℤ) (verbose : Bool)
    (vs ws : List ℚ) (m : Monitor)
    (h : reportAll (mk tol n_iter verbose) (vs ++ ws) = .ok m) :
    (∃ mi, reportAll (mk tol n_iter verbose) vs = .ok mi ∧ mi.history.length ≤ 2) ∧
    (reset m).history = [] ∧ (reset m).iter = 0 ∧
    (reset m).tol = tol ∧ (reset m).n_iter = n_iter ∧ (reset m).verbose = verbose := by
  obtain ⟨mi, h1, h2⟩ := reportAll_append_ok h
  obtain ⟨-, ht, hn, hv⟩ := reportAll_ok_state h
  exact ⟨⟨mi, h1, reportAll_ok_history_le (by simp [mk]) h1⟩, rfl, rfl, ht, hn, hv⟩

/-- Witness for C7: values `[1, 2]` then `[3]` on a fresh monitor. -/
theorem history_bounded_and_reset_clears_witness :
    (∃ mi, reportAll (mk 0 10 false) [1, 2] = .ok mi ∧ mi.history.length ≤ 2) ∧
    (reset { tol := 0, n_iter := 10, verbose := false, history := [2, 3], iter := 3 }).history = [] ∧
    (reset { tol := 0, n_iter := 10, verbose := false, history := [2, 3], iter := 3 }).iter = 0 ∧
    (reset { tol := 0, n_iter := 10, verbose := false, history := [2, 3], iter := 3 }).tol = 0 ∧
    (reset { tol := 0, n_iter := 10, verbose := false, history := [2, 3], iter := 3 }).n_iter = 10 ∧
    (reset { tol := 0, n_iter := 10, verbose := false, history := [2, 3], iter := 3 }).verbose = false :=
  history_bounded_and_reset_clears 0 10 false [1, 2] [3]
    { tol := 0, n_iter := 10, verbose := false, history := [2, 3], iter := 3 } rfl

/-- Claim C10: the max-iteration disjunct of `converged` is an exact
equality test, not `≥`: after exactly `maxIterations` completed `report`
calls `converged` is true, and after one more call (which the design
permits) it is false again, provided the policy condition is false at the
later state. -/
theorem converged_exact_equality (p : Policy) (tol : ℚ) (verbose : Bool)
    (n : ℤ) (vs : List ℚ) (v : ℚ) (m m' : Monitor)
    (hlen : (vs.length : ℤ) = n)
    (h : reportAll (mk tol n verbose) vs = .ok m)
    (h' : report m v = .ok m')
    (hc : checkConvergence p m' = .ok false) :
    converged p m = .ok true ∧ converged p m' = .ok false := by
  obtain ⟨hi, -, hn, -⟩ := reportAll_ok_state h
  have hiter : m.iter = n := by
    rw [hi]
    simp [mk, hlen]
  have hneq : m.n_iter = n := hn
  constructor
  · simp [converged, hiter, hneq]
  · have hm' := report_ok_elim h'
    have hi' : m'.iter = n + 1 := by
      rw [hm']
      simp [hiter]
    have hn' : m'.n_iter = n := by
      rw [hm']
      simp [hneq]
    have hne : m'.iter ≠ m'.n_iter := by
      rw [hi', hn']
      omega
    simp [converged, hne, hc]

/-- Witness for C10: threshold policy with unreachable tolerance `100` and
`maxIterations = 1`: converged after the 1st call, no longer converged
after a 2nd call. -/
theorem converged_exact_equality_witness :
    converged .threshold
      { tol := 100, n_iter := 1, verbose := false, history := [0], iter := 1 } = .ok true ∧
    converged .threshold
      { tol := 100, n_iter := 1, verbose := false, history := [0, 0], iter := 2 } = .ok false :=
  converged_exact_equality .threshold 100 false 1 [0] 0
    { tol := 100, n_iter := 1, verbose := false, history := [0], iter := 1 }
    { tol := 100, n_iter := 1, verbose := false, history := [0, 0], iter := 2 }
    rfl rfl rfl rfl
